import Mathlib

/-!
Shallow embedding of the SAAS_APP backend controllers
(review_ratingsController.js, videoController.js, paymentController.js).

The Persistent Store is modelled as lists of rows; every handler is a pure
function from a `Store` (plus request inputs) to a response and the updated
`Store`.  Supabase's `.single()` modifier returns a row exactly when the
filter matches exactly one row (PostgREST errors on zero or on several rows,
and the handlers that destructure only `data` then see `null`).  JavaScript
falsiness of request-body fields (`undefined`, `0`, `""`) is modelled
explicitly where the source tests it.
-/

namespace SaasApp

/-- Row of the `courses` table (fields the studied handlers touch).
`reviews` and `ratingavg` are the cached review count / average rating. -/
structure CourseRow where
  courseid : Nat
  author : Nat
  price : Rat
  reviews : Nat
  ratingavg : Rat
deriving DecidableEq

/-- Row of the `review_ratings` table. -/
structure ReviewRow where
  review_id : Nat
  user_id : Nat
  course_id : Nat
  rating : Rat
  review : Option String
deriving DecidableEq

/-- Row of the `videos` table. -/
structure VideoRow where
  video_id : Nat
  video_title : String
  video_duration : Nat
  in_course : Nat
  video_url : String
  order_index : Nat
deriving DecidableEq

/-- Row of the `video_progress` table (composite key `user_id`, `video_id`). -/
structure ProgressRow where
  user_id : Nat
  video_id : Nat
  status : String
  watched_seconds : Nat
  updated_at : Nat
deriving DecidableEq

/-- Row of the `payments` table. -/
structure PaymentRow where
  payment_id : Nat
  user_id : Nat
  course_id : Nat
  amount : Rat
  payment_status : String
  stripe_session_id : String
deriving DecidableEq

/-- Row of the `enrollments` table. -/
structure EnrollmentRow where
  enrollment_id : Nat
  user_id : Nat
  course_id : Nat
  enrollment_date : Nat
deriving DecidableEq

/-- The whole persistent store. -/
structure Store where
  courses : List CourseRow
  review_ratings : List ReviewRow
  videos : List VideoRow
  video_progress : List ProgressRow
  payments : List PaymentRow
  enrollments : List EnrollmentRow
deriving DecidableEq

/-- HTTP-style handler response: success with a status code and data, or an
error with a status code and message (what `next(new AppError(msg, code))`
produces). -/
inductive Resp (α : Type) where
  | ok (status : Nat) (data : α)
  | err (status : Nat) (msg : String)
deriving DecidableEq

/-- Whether a response is a success. -/
def Resp.isOk : Resp α → Bool
  | .ok _ _ => true
  | .err _ _ => false

/-- The HTTP status code of a response. -/
def Resp.statusOf : Resp α → Nat
  | .ok st _ => st
  | .err st _ => st

/-- Supabase `.select(...).single()`: the row when the filter matches exactly
one row, otherwise `none` (PostgREST reports an error for zero or several
matches, and handlers that ignore the error see `data = null`). -/
def selectSingle (l : List α) (p : α → Bool) : Option α :=
  match l.filter p with
  | [a] => some a
  | _ => none

/-- JavaScript `Number(x.toFixed(1))` on a non-negative rational: round to one
decimal place, halves away from zero. -/
def toFixed1 (q : Rat) : Rat := ((round (q * 10) : Int) : Rat) / 10

/-! ### review_ratingsController.js -/

/-- All `review_ratings` rows of one course. -/
def reviewsFor (rows : List ReviewRow) (cid : Nat) : List ReviewRow :=
  rows.filter (fun r => r.course_id == cid)

/-- Computes `allReviews.reduce((sum, item) => sum + Number(item.rating), 0) /
totalReviews`, and `0` when there are no reviews. -/
def avgRatingOf (rows : List ReviewRow) : Rat :=
  if rows.length > 0 then
    (rows.map (fun r => r.rating)).sum / (rows.length : Rat)
  else 0

/-- The recompute-and-write step shared by review create / delete: write both
`reviews` (count) and `ratingavg` (rounded average) onto the course row. -/
def applyCourseStats (s : Store) (cid : Nat) : Store :=
  let all := reviewsFor s.review_ratings cid
  { s with courses := s.courses.map fun c =>
      if c.courseid == cid then
        { c with reviews := all.length, ratingavg := toFixed1 (avgRatingOf all) }
      else c }

/-- The recompute step of review update: the source writes only `ratingavg`
(not the count) onto the course row. -/
def applyCourseAvg (s : Store) (cid : Nat) : Store :=
  let all := reviewsFor s.review_ratings cid
  { s with courses := s.courses.map fun c =>
      if c.courseid == cid then { c with ratingavg := toFixed1 (avgRatingOf all) }
      else c }

/-- Fresh primary key for an inserted review row. -/
def freshReviewId (s : Store) : Nat :=
  (s.review_ratings.map (fun r => r.review_id)).foldr max 0 + 1

/-- Handler `exports.createReview`: presence and range validation, course existence,
"already reviewed" dedup pre-check, insert, then stats recompute. -/
def createReview (s : Store) (userId : Nat) (course_id : Option Nat)
    (rating : Option Rat) (review : Option String) : Resp ReviewRow × Store :=
  match course_id, rating with
  | some cid, some rat =>
    if cid == 0 || rat == 0 then
      (.err 400 "Please provide course_id and rating", s)
    else if rat < 1 ∨ rat > 5 then
      (.err 400 "Rating must be between 1.0 and 5.0", s)
    else
      match selectSingle s.courses (fun c => c.courseid == cid) with
      | none => (.err 404 "Course not found", s)
      | some _ =>
        match selectSingle s.review_ratings
            (fun r => r.user_id == userId && r.course_id == cid) with
        | some _ =>
          (.err 400 "You have already reviewed this course. Use update instead.", s)
        | none =>
          let row : ReviewRow :=
            { review_id := freshReviewId s, user_id := userId, course_id := cid,
              rating := rat, review := review }
          let s1 := { s with review_ratings := s.review_ratings ++ [row] }
          (.ok 201 row, applyCourseStats s1 cid)
  | _, _ => (.err 400 "Please provide course_id and rating", s)

/-- JavaScript `review || null` applied to the optional `review` body field. -/
def jsOrNull (v : Option String) : Option String :=
  match v with
  | some "" => none
  | x => x

/-- The `updateFields` patch of `updateReview` when a `rating` was supplied:
set `rating`, and set `review` to `review || null` when it was supplied. -/
def updFields (reviewId : Nat) (rat : Rat) (review : Option (Option String))
    (r : ReviewRow) : ReviewRow :=
  if r.review_id == reviewId then
    { r with
      rating := rat,
      review := match review with
        | some rv => jsOrNull rv
        | none => r.review }
  else r

/-- The `updateFields` patch of `updateReview` when only `review` was
supplied. -/
def updReviewOnly (reviewId : Nat) (rv : Option String) (r : ReviewRow) : ReviewRow :=
  if r.review_id == reviewId then { r with review := jsOrNull rv } else r

/-- Handler `exports.updateReview`: fetch, ownership check, per-field validation
(range check first, as in the source), update, then average-only recompute
when a `rating` field was supplied. -/
def updateReview (s : Store) (userId reviewId : Nat) (rating : Option Rat)
    (review : Option (Option String)) : Resp ReviewRow × Store :=
  match selectSingle s.review_ratings (fun r => r.review_id == reviewId) with
  | none => (.err 404 "No review found with that ID", s)
  | some ex =>
    if ex.user_id != userId then
      (.err 403 "You are not authorized to update this review", s)
    else
      match rating, review with
      | none, none => (.err 400 "No valid fields to update", s)
      | some rat, review =>
        if rat < 1 ∨ rat > 5 then
          (.err 400 "Rating must be between 1.0 and 5.0", s)
        else
          let s1 := { s with
            review_ratings := s.review_ratings.map (updFields reviewId rat review) }
          match selectSingle s1.review_ratings (fun r => r.review_id == reviewId) with
          | some rd => (.ok 200 (updFields reviewId rat review ex), applyCourseAvg s1 rd.course_id)
          | none => (.ok 200 (updFields reviewId rat review ex), s1)
      | none, some rv =>
        (.ok 200 (updReviewOnly reviewId rv ex),
          { s with review_ratings := s.review_ratings.map (updReviewOnly reviewId rv) })

/-- Handler `exports.deleteReview`: fetch, ownership check, capture the course id,
delete, then stats recompute on the captured course. -/
def deleteReview (s : Store) (userId reviewId : Nat) : Resp Unit × Store :=
  match selectSingle s.review_ratings (fun r => r.review_id == reviewId) with
  | none => (.err 404 "No review found with that ID", s)
  | some ex =>
    if ex.user_id != userId then
      (.err 403 "You are not authorized to delete this review", s)
    else
      let reviewData := selectSingle s.review_ratings (fun r => r.review_id == reviewId)
      let s1 := { s with
        review_ratings := s.review_ratings.filter (fun r => !(r.review_id == reviewId)) }
      match reviewData with
      | some rd => (.ok 204 (), applyCourseStats s1 rd.course_id)
      | none => (.ok 204 (), s1)

/-! ### videoController.js : video ordering -/

/-- All `videos` rows of one course (`eq('in_course', courseId)`). -/
def courseVideos (vs : List VideoRow) (cid : Nat) : List VideoRow :=
  vs.filter (fun v => v.in_course == cid)

/-- Ascending comparison on `order_index` (`order('order_index', ascending)`). -/
def vasc (a b : VideoRow) : Prop := a.order_index ≤ b.order_index

/-- Descending comparison on `order_index` (`ascending: false`). -/
def vdesc (a b : VideoRow) : Prop := b.order_index ≤ a.order_index

instance : DecidableRel vasc := fun a b =>
  inferInstanceAs (Decidable (a.order_index ≤ b.order_index))

instance : DecidableRel vdesc := fun a b =>
  inferInstanceAs (Decidable (b.order_index ≤ a.order_index))

instance : IsTotal VideoRow vasc := ⟨fun a b => Nat.le_total a.order_index b.order_index⟩

instance : IsTrans VideoRow vasc := ⟨fun _ _ _ h1 h2 => Nat.le_trans h1 h2⟩

instance : IsTotal VideoRow vdesc := ⟨fun a b => Nat.le_total b.order_index a.order_index⟩

instance : IsTrans VideoRow vdesc := ⟨fun _ _ _ h1 h2 => Nat.le_trans h2 h1⟩

/-- Index computation of `uploadVideoToStorage`: query the course's videos
ordered by `order_index` descending, limit 1; next index is that row's
`order_index + 1`, or `0` when the course has no videos. -/
def nextOrderIndex (vs : List VideoRow) (cid : Nat) : Nat :=
  match (List.insertionSort vdesc (courseVideos vs cid)).head? with
  | some v => v.order_index + 1
  | none => 0

/-- Fresh primary key for an inserted video row. -/
def freshVideoId (s : Store) : Nat :=
  (s.videos.map (fun v => v.video_id)).foldr max 0 + 1

/-- Handler `exports.userUploadVideo`: course lookup, author check, then insert with
the `order_index` already placed in the body by `uploadVideoToStorage`. -/
def userUploadVideo (s : Store) (userId : Nat) (in_course : Option Nat)
    (title : String) (duration : Nat) (url : String) (orderIdx : Nat) :
    Resp VideoRow × Store :=
  match in_course with
  | none => (.err 400 "Please provide in_course (course ID)", s)
  | some cid =>
    if cid == 0 then (.err 400 "Please provide in_course (course ID)", s)
    else
      match selectSingle s.courses (fun c => c.courseid == cid) with
      | none => (.err 404 "Course not found", s)
      | some course =>
        if course.author != userId then
          (.err 403 "You are not authorized to upload videos to this course", s)
        else
          let row : VideoRow :=
            { video_id := freshVideoId s, video_title := title,
              video_duration := duration, in_course := cid,
              video_url := url, order_index := orderIdx }
          (.ok 201 row, { s with videos := s.videos ++ [row] })

/-- The upload/append path: `uploadVideoToStorage` computes the next
`order_index` for the course and `userUploadVideo` inserts with it. -/
def uploadAppend (s : Store) (userId cid : Nat) (title : String)
    (duration : Nat) (url : String) : Resp VideoRow × Store :=
  userUploadVideo s userId (some cid) title duration url (nextOrderIndex s.videos cid)

/-- Handler `exports.getVideosByCourse`: the course's videos ordered ascending by
`order_index`. -/
def getVideosByCourse (s : Store) (cid : Nat) : Resp (List VideoRow) :=
  .ok 200 (List.insertionSort vasc (courseVideos s.videos cid))

/-- Handler `exports.createVideo` (admin direct-create path): required-field
validation, then insert with `order_index: order_index || 0` — no read of the
course's existing indices. -/
def createVideo (s : Store) (title : String) (duration : Nat)
    (in_course : Option Nat) (url : String) (order_index : Option Nat) :
    Resp VideoRow × Store :=
  match in_course with
  | none => (.err 400 "Please provide video_title, video_duration, in_course, and video_url", s)
  | some cid =>
    if title == "" || duration == 0 || cid == 0 || url == "" then
      (.err 400 "Please provide video_title, video_duration, in_course, and video_url", s)
    else
      let row : VideoRow :=
        { video_id := freshVideoId s, video_title := title,
          video_duration := duration, in_course := cid,
          video_url := url, order_index := order_index.getD 0 }
      (.ok 201 row, { s with videos := s.videos ++ [row] })

/-! ### videoController.js : viewing progress -/

/-- JavaScript falsiness of the `status` body field (`undefined` or `""`). -/
def statusFalsy (st : Option String) : Bool :=
  match st with
  | none => true
  | some v => v == ""

/-- Store upsert keyed on `(user_id, video_id)`: overwrite the row with that
key when present, insert otherwise. -/
def upsertProgress (rows : List ProgressRow) (r : ProgressRow) : List ProgressRow :=
  if rows.any (fun q => q.user_id == r.user_id && q.video_id == r.video_id) then
    rows.map (fun q =>
      if q.user_id == r.user_id && q.video_id == r.video_id then r else q)
  else rows ++ [r]

/-- Number of `video_progress` rows for one (user, video) pair. -/
def pairCount (rows : List ProgressRow) (uid vid : Nat) : Nat :=
  (rows.filter (fun q => q.user_id == uid && q.video_id == vid)).length

/-- The `video_progress` row for one (user, video) pair, when unique. -/
def rowFor (rows : List ProgressRow) (uid vid : Nat) : Option ProgressRow :=
  selectSingle rows (fun q => q.user_id == uid && q.video_id == vid)

/-- Handler `exports.updateVideoProgress`: auth check, at-least-one-field validation,
then upsert of `{status: status || 'in_progress', watched_seconds:
watched_seconds || 0}` keyed on `(user_id, video_id)`. -/
def updateVideoProgress (s : Store) (userId : Option Nat) (videoId : Nat)
    (status : Option String) (watched_seconds : Option Nat) (now : Nat) :
    Resp ProgressRow × Store :=
  match userId with
  | none => (.err 401 "Not authenticated", s)
  | some uid =>
    if statusFalsy status && watched_seconds == none then
      (.err 400 "Please provide status or watched_seconds", s)
    else
      let row : ProgressRow :=
        { user_id := uid, video_id := videoId,
          status := if statusFalsy status then "in_progress" else status.getD "in_progress",
          watched_seconds := watched_seconds.getD 0,
          updated_at := now }
      (.ok 200 row, { s with video_progress := upsertProgress s.video_progress row })

/-- Progress attached to a video in the course-with-progress listing: either
a stored row or the synthetic `\x7bstatus: 'not_started', watched_seconds: 0\x7d`
default object. -/
inductive ProgressView where
  | row (p : ProgressRow)
  | dflt
deriving DecidableEq

/-- Lookup in `progMap` built by `progMap[p.video_id] = p` over a `forEach`: the last row wins. -/
def lookupProg (pd : List ProgressRow) (vid : Nat) : Option ProgressRow :=
  pd.reverse.find? (fun p => p.video_id == vid)

/-- Handler `exports.getVideosWithProgress`: list the course's videos ascending, then
left-join each with the user's progress row, defaulting to the synthetic
`not_started/0` object.  `progressReadFails` models a store error on the
`video_progress` read: the source swallows it and proceeds with an empty
progress list. -/
def getVideosWithProgress (s : Store) (courseId : Nat) (userId : Option Nat)
    (progressReadFails : Bool) : Resp (List (VideoRow × ProgressView)) :=
  let videos := List.insertionSort vasc (courseVideos s.videos courseId)
  match userId with
  | none => .ok 200 (videos.map (fun v => (v, ProgressView.dflt)))
  | some uid =>
    let videoIds := videos.map (fun v => v.video_id)
    let progressData :=
      if videoIds.length > 0 then
        if progressReadFails then []
        else s.video_progress.filter
          (fun p => p.user_id == uid && videoIds.contains p.video_id)
      else []
    .ok 200 (videos.map (fun v =>
      match lookupProg progressData v.video_id with
      | some p => (v, ProgressView.row p)
      | none => (v, ProgressView.dflt)))

/-! ### paymentController.js / checkout, webhook and verify -/

/-- The Payment Provider's view of a checkout session, as the handlers read
it (`payment_status`, correlation ids in `client_reference_id` / `metadata`,
`amount_total` in the smallest currency unit). -/
structure StripeSession where
  id : String
  payment_status : String
  client_reference_id : Option Nat
  metadata_user_id : Option Nat
  metadata_course_id : Option Nat
  amount_total : Nat
deriving DecidableEq

/-- Fresh primary key for an inserted payment row. -/
def freshPaymentId (s : Store) : Nat :=
  (s.payments.map (fun p => p.payment_id)).foldr max 0 + 1

/-- Fresh primary key for an inserted enrollment row. -/
def freshEnrollmentId (s : Store) : Nat :=
  (s.enrollments.map (fun e => e.enrollment_id)).foldr max 0 + 1

/-- Insert the `succeeded` payment row a confirmation records. -/
def insertPayment (s : Store) (uid cid : Nat) (amount : Rat) (sid : String) : Store :=
  { s with payments := s.payments ++
      [{ payment_id := freshPaymentId s, user_id := uid, course_id := cid,
         amount := amount, payment_status := "succeeded", stripe_session_id := sid }] }

/-- Insert the enrollment row a confirmation records. -/
def insertEnrollment (s : Store) (uid cid : Nat) (now : Nat) : Store :=
  { s with enrollments := s.enrollments ++
      [{ enrollment_id := freshEnrollmentId s, user_id := uid, course_id := cid,
         enrollment_date := now }] }

/-- Handler `exports.webhookCheckout` after signature verification, on a
`checkout.session.completed` event: ignore unpaid sessions, ignore sessions
without correlation metadata, dedup on `stripe_session_id`, else insert one
`succeeded` payment and one enrollment and acknowledge with 200. -/
def webhookCheckout (s : Store) (eventType : String) (session : StripeSession)
    (now : Nat) : Resp Unit × Store :=
  if eventType != "checkout.session.completed" then (.ok 200 (), s)
  else if session.payment_status != "paid" then (.ok 200 (), s)
  else
    match session.client_reference_id.orElse (fun _ => session.metadata_course_id),
        session.metadata_user_id with
    | some cid, some uid =>
      match selectSingle s.payments (fun p => p.stripe_session_id == session.id) with
      | some _ => (.ok 200 (), s)
      | none =>
        let amount : Rat := (session.amount_total : Rat) / 100
        let s1 := insertPayment s uid cid amount session.id
        (.ok 200 (), insertEnrollment s1 uid cid now)
    | _, _ => (.ok 200 (), s)

/-- Handler `exports.verifyPayment`: retrieve the session from the provider, reject
unpaid sessions, reject (400, dedup) when a payment row for the session id
exists, else insert one `succeeded` payment and one enrollment. -/
def verifyPayment (s : Store) (session_id : Option String)
    (retrieve : String → Option StripeSession) (now : Nat) : Resp Unit × Store :=
  match session_id with
  | none => (.err 400 "Please provide session_id", s)
  | some sid =>
    if sid == "" then (.err 400 "Please provide session_id", s)
    else
      match retrieve sid with
      | none => (.err 400 "Stripe error: No such checkout session", s)
      | some session =>
        if session.payment_status != "paid" then (.err 400 "Payment not completed", s)
        else
          match selectSingle s.payments (fun p => p.stripe_session_id == sid) with
          | some _ => (.err 400 "Payment already recorded", s)
          | none =>
            match session.client_reference_id, session.metadata_user_id with
            | some cid, some uid =>
              let amount : Rat := (session.amount_total : Rat) / 100
              let s1 := insertPayment s uid cid amount session.id
              (.ok 200 (), insertEnrollment s1 uid cid now)
            | _, _ => (.err 400 "null value in column violates not-null constraint", s)

/-- Outcome of `exports.getCheckoutSession` up to the Payment Provider call:
either an error response, or control reached
`stripe.checkout.sessions.create`. -/
inductive CheckoutOutcome where
  | erred (status : Nat) (msg : String)
  | providerCalled
deriving DecidableEq

/-- Handler `exports.getCheckoutSession`: course lookup, price validation, then the
already-purchased pre-check — all before the Payment Provider call. -/
def getCheckoutSession (s : Store) (userId courseId : Nat) : CheckoutOutcome :=
  match selectSingle s.courses (fun c => c.courseid == courseId) with
  | none => .erred 404 "Course not found"
  | some course =>
    if course.price ≤ 0 then .erred 400 "Invalid course price"
    else
      match selectSingle s.payments (fun p =>
          p.user_id == userId && p.course_id == courseId &&
          p.payment_status == "succeeded") with
      | some _ => .erred 400 "You have already purchased this course"
      | none => .providerCalled

/-- Number of payment rows recorded for one provider session id. -/
def paymentsForSession (s : Store) (sid : String) : Nat :=
  (s.payments.filter (fun p => p.stripe_session_id == sid)).length

/-- Number of enrollment rows for one (user, course) pair. -/
def enrollmentsFor (s : Store) (uid cid : Nat) : Nat :=
  (s.enrollments.filter (fun e => e.user_id == uid && e.course_id == cid)).length

/-! ### Derived predicates used by the statements -/

/-- The cached `reviews` count of every row of course `cid` matches the
number of its `review_ratings` rows. -/
def countConsistent (s : Store) (cid : Nat) : Bool :=
  s.courses.all fun c => c.courseid != cid ||
    c.reviews == (reviewsFor s.review_ratings cid).length

/-- The cached `reviews` count and `ratingavg` of every row of course `cid`
match the count and the rounded mean of its `review_ratings` rows. -/
def statsConsistent (s : Store) (cid : Nat) : Bool :=
  s.courses.all fun c => c.courseid != cid ||
    (c.reviews == (reviewsFor s.review_ratings cid).length &&
     c.ratingavg == toFixed1 (avgRatingOf (reviewsFor s.review_ratings cid)))

/-- Number of videos of course `cid` carrying `order_index = 0`. -/
def zeroIndexCount (vs : List VideoRow) (cid : Nat) : Nat :=
  ((courseVideos vs cid).filter (fun v => v.order_index == 0)).length

/-- A one-course store with no reviews, used as concrete witness input. -/
def wStore : Store :=
  { courses := [{ courseid := 1, author := 7, price := 10, reviews := 0, ratingavg := 0 }],
    review_ratings := [], videos := [], video_progress := [], payments := [],
    enrollments := [] }

/-- The store of the spec scenario after ratings [5, 3, 4] were added to the
review-less course of `wStore` by three users. -/
def scenarioAfterCreates : Store :=
  (createReview (createReview (createReview wStore 10 (some 1) (some 5) none).2
    11 (some 1) (some 3) none).2 12 (some 1) (some 4) none).2

/-- The scenario store after the rating-3 review (review_id 2, owned by
user 11) is deleted again. -/
def scenarioAfterDelete : Store :=
  (deleteReview scenarioAfterCreates 11 2).2

/-! ## Helper lemmas -/

theorem updFields_course_id (reviewId : Nat) (rat : Rat) (review : Option (Option String))
    (r : ReviewRow) : (updFields reviewId rat review r).course_id = r.course_id := by
  unfold updFields
  split <;> rfl

theorem updFields_review_id (reviewId : Nat) (rat : Rat) (review : Option (Option String))
    (r : ReviewRow) : (updFields reviewId rat review r).review_id = r.review_id := by
  unfold updFields
  split <;> rfl

theorem filter_eq_of_selectSingle {α : Type} {l : List α} {p : α → Bool} {a : α}
    (h : selectSingle l p = some a) : l.filter p = [a] := by
  unfold selectSingle at h
  split at h
  next heq =>
    cases h
    exact heq
  next heq =>
    cases h

theorem selectSingle_of_filter_eq {α : Type} {l : List α} {p : α → Bool} {a : α}
    (h : l.filter p = [a]) : selectSingle l p = some a := by
  unfold selectSingle
  rw [h]

theorem reviewsFor_map_length (l : List ReviewRow) (f : ReviewRow → ReviewRow)
    (hf : ∀ r, (f r).course_id = r.course_id) (cid : Nat) :
    (reviewsFor (l.map f) cid).length = (reviewsFor l cid).length := by
  unfold reviewsFor
  rw [List.filter_map, List.length_map]
  congr 1
  apply List.filter_congr
  intro a _
  simp [hf a]

theorem countConsistent_map_reviews (s : Store) (f : ReviewRow → ReviewRow)
    (hf : ∀ r, (f r).course_id = r.course_id) (cid : Nat) :
    countConsistent { s with review_ratings := s.review_ratings.map f } cid =
      countConsistent s cid := by
  unfold countConsistent
  simp only [reviewsFor_map_length _ f hf]

theorem statsConsistent_applyCourseStats (t : Store) (cid : Nat) :
    statsConsistent (applyCourseStats t cid) cid = true := by
  simp only [statsConsistent, applyCourseStats, List.all_eq_true, List.mem_map]
  rintro c ⟨c0, hc0, rfl⟩
  by_cases h : c0.courseid == cid
  · simp [h]
  · rw [if_neg h]
    simp only [beq_iff_eq] at h
    simp [h]

theorem statsConsistent_applyCourseAvg (t : Store) (cid : Nat)
    (hcount : countConsistent t cid = true) :
    statsConsistent (applyCourseAvg t cid) cid = true := by
  simp only [countConsistent, List.all_eq_true] at hcount
  simp only [statsConsistent, applyCourseAvg, List.all_eq_true, List.mem_map]
  rintro c ⟨c0, hc0, rfl⟩
  by_cases h : c0.courseid == cid
  · rw [if_pos h]
    have := hcount c0 hc0
    simp [h] at this ⊢
    exact this
  · rw [if_neg h]
    simp only [beq_iff_eq] at h
    simp [h]

theorem createReview_statsConsistent (s : Store) (userId cid : Nat) (rat : Rat)
    (review : Option String)
    (hok : (createReview s userId (some cid) (some rat) review).1.isOk = true) :
    statsConsistent (createReview s userId (some cid) (some rat) review).2 cid = true := by
  by_cases h1 : (cid == 0 || rat == 0) = true
  · simp [createReview, h1, Resp.isOk] at hok
  · by_cases h2 : rat < 1 ∨ rat > 5
    · simp [createReview, h1, h2, Resp.isOk] at hok
    · rcases h3 : selectSingle s.courses (fun c => c.courseid == cid) with _ | c
      · simp [createReview, h1, h2, h3, Resp.isOk] at hok
      · rcases h4 : selectSingle s.review_ratings
            (fun r => r.user_id == userId && r.course_id == cid) with _ | ex
        · simp only [createReview, h1, h2, h3, h4]
          simp only [Bool.false_eq_true, if_false, if_neg h2]
          exact statsConsistent_applyCourseStats _ _
        · simp [createReview, h1, h2, h3, h4, Resp.isOk] at hok

theorem updateReview_statsConsistent (s : Store) (userId reviewId : Nat) (rat : Rat)
    (review : Option (Option String)) (cid : Nat)
    (hok : (updateReview s userId reviewId (some rat) review).1.isOk = true)
    (hcid : (selectSingle s.review_ratings (fun r => r.review_id == reviewId)).map
        (fun r => r.course_id) = some cid)
    (hcount : countConsistent s cid = true) :
    statsConsistent (updateReview s userId reviewId (some rat) review).2 cid = true := by
  rcases hsel : selectSingle s.review_ratings (fun r => r.review_id == reviewId) with _ | ex
  · rw [hsel] at hcid
    simp at hcid
  · rw [hsel] at hcid
    simp only [Option.map_some'] at hcid
    have hex_cid : ex.course_id = cid := by injection hcid
    by_cases howner : (ex.user_id != userId) = true
    · simp [updateReview, hsel, howner, Resp.isOk] at hok
    · by_cases hrange : rat < 1 ∨ rat > 5
      · simp [updateReview, hsel, howner, hrange, Resp.isOk] at hok
      · have hfil : s.review_ratings.filter (fun r => r.review_id == reviewId) = [ex] :=
          filter_eq_of_selectSingle hsel
        have hfil1 : (s.review_ratings.map (updFields reviewId rat review)).filter
            (fun r => r.review_id == reviewId) = [updFields reviewId rat review ex] := by
          rw [List.filter_map]
          rw [show (fun r : ReviewRow => r.review_id == reviewId) ∘ updFields reviewId rat review
              = fun r => r.review_id == reviewId from
            funext fun a => by simp [Function.comp, updFields_review_id]]
          rw [hfil]
          rfl
        have hsel1 : selectSingle (s.review_ratings.map (updFields reviewId rat review))
            (fun r => r.review_id == reviewId) = some (updFields reviewId rat review ex) :=
          selectSingle_of_filter_eq hfil1
        simp only [updateReview, hsel, howner, Bool.false_eq_true, if_false, if_neg hrange,
          hsel1]
        rw [updFields_course_id, hex_cid]
        apply statsConsistent_applyCourseAvg
        rw [countConsistent_map_reviews s _ (fun r => updFields_course_id reviewId rat review r) cid]
        exact hcount

theorem deleteReview_statsConsistent (s : Store) (userId reviewId : Nat) (cid : Nat)
    (hok : (deleteReview s userId reviewId).1.isOk = true)
    (hcid : (selectSingle s.review_ratings (fun r => r.review_id == reviewId)).map
        (fun r => r.course_id) = some cid) :
    statsConsistent (deleteReview s userId reviewId).2 cid = true := by
  rcases hsel : selectSingle s.review_ratings (fun r => r.review_id == reviewId) with _ | ex
  · rw [hsel] at hcid
    simp at hcid
  · rw [hsel] at hcid
    simp only [Option.map_some'] at hcid
    have hex_cid : ex.course_id = cid := by injection hcid
    by_cases howner : (ex.user_id != userId) = true
    · simp [deleteReview, hsel, howner, Resp.isOk] at hok
    · simp only [deleteReview, hsel, howner, Bool.false_eq_true, if_false]
      rw [hex_cid]
      exact statsConsistent_applyCourseStats _ _

/-! ## Claim theorems -/

/-- C1: after any non-failing review create, a rating-field update, or a
delete, the course's cached `ratingavg` is the rounded mean and `reviews`
the count of its review rows (count assumed already correct before the
update, which does not rewrite it); and the spec's scenario: from no
reviews, adding ratings [5, 3, 4] yields average 4.0 and count 3, deleting
the rating 3 yields average 4.5 and count 2. -/
theorem C1_rating_cache_consistency :
    (∀ (s : Store) (userId cid : Nat) (rat : Rat) (review : Option String),
      (createReview s userId (some cid) (some rat) review).1.isOk = true →
      statsConsistent (createReview s userId (some cid) (some rat) review).2 cid = true) ∧
    (∀ (s : Store) (userId reviewId : Nat) (rat : Rat) (review : Option (Option String))
        (cid : Nat),
      (updateReview s userId reviewId (some rat) review).1.isOk = true →
      (selectSingle s.review_ratings (fun r => r.review_id == reviewId)).map
        (fun r => r.course_id) = some cid →
      countConsistent s cid = true →
      statsConsistent (updateReview s userId reviewId (some rat) review).2 cid = true) ∧
    (∀ (s : Store) (userId reviewId cid : Nat),
      (deleteReview s userId reviewId).1.isOk = true →
      (selectSingle s.review_ratings (fun r => r.review_id == reviewId)).map
        (fun r => r.course_id) = some cid →
      statsConsistent (deleteReview s userId reviewId).2 cid = true) ∧
    (wStore.courses.map (fun c => (c.reviews, c.ratingavg)) = [(0, 0)] ∧
     scenarioAfterCreates.courses.map (fun c => (c.reviews, c.ratingavg)) = [(3, 4)] ∧
     (deleteReview scenarioAfterCreates 11 2).1.isOk = true ∧
     scenarioAfterDelete.courses.map (fun c => (c.reviews, c.ratingavg)) = [(2, 9/2)]) :=
  ⟨createReview_statsConsistent, updateReview_statsConsistent,
   deleteReview_statsConsistent, by decide,
   by
     norm_num [scenarioAfterCreates, createReview, wStore, selectSingle, freshReviewId,
       applyCourseStats, reviewsFor, avgRatingOf, toFixed1, round_eq],
   by
     norm_num [scenarioAfterCreates, deleteReview, createReview, wStore, selectSingle,
       freshReviewId, applyCourseStats, reviewsFor, avgRatingOf, toFixed1, round_eq, Resp.isOk],
   by
     norm_num [scenarioAfterDelete, scenarioAfterCreates, deleteReview, createReview, wStore,
       selectSingle, freshReviewId, applyCourseStats, reviewsFor, avgRatingOf, toFixed1,
       round_eq]⟩

/-- Witness for C1 at a concrete input: a successful create on the
one-course store leaves consistent cached stats. -/
theorem C1_rating_cache_consistency_witness :
    statsConsistent (createReview wStore 10 (some 1) (some 5) none).2 1 = true :=
  C1_rating_cache_consistency.1 wStore 10 1 5 none (by decide)


/-- C5: creating a review when the (user, course) pair already has a
`review_ratings` row (as found by the `.single()` dedup pre-check, i.e.
exactly one such row) is rejected with a 400 error and the store is left
unchanged: no insert and no recompute happen. -/
theorem C5_duplicate_review_rejected :
    ∀ (s : Store) (userId cid : Nat) (rat : Rat) (review : Option String)
      (c : CourseRow) (ex : ReviewRow),
      cid ≠ 0 → 1 ≤ rat → rat ≤ 5 →
      selectSingle s.courses (fun cr => cr.courseid == cid) = some c →
      selectSingle s.review_ratings
        (fun r => r.user_id == userId && r.course_id == cid) = some ex →
      createReview s userId (some cid) (some rat) review =
        (.err 400 "You have already reviewed this course. Use update instead.", s) := by
  intro s userId cid rat review c ex hcid hlo hhi hcourse hdup
  have h0 : (cid == 0 || rat == 0) = false := by
    have h1 : (cid == 0) = false := by simpa using hcid
    have h2 : (rat == 0) = false := by
      have : rat ≠ 0 := by
        intro h
        rw [h] at hlo
        exact absurd hlo (by norm_num)
      simpa using this
    simp [h1, h2]
  have hr : ¬(rat < 1 ∨ rat > 5) := by
    push_neg
    exact ⟨hlo, hhi⟩
  simp [createReview, h0, hr, hcourse, hdup]

/-- Witness for C5: on a store holding course 1 and a review by user 10, a
second create by user 10 is rejected and the store unchanged. -/
theorem C5_duplicate_review_rejected_witness :
    createReview { courses := [{ courseid := 1, author := 7, price := 10, reviews := 1, ratingavg := 5 }], review_ratings := [{ review_id := 1, user_id := 10, course_id := 1, rating := 5, review := none }], videos := [], video_progress := [], payments := [], enrollments := [] } 10 (some 1) (some 4) none =
      (.err 400 "You have already reviewed this course. Use update instead.",
        { courses := [{ courseid := 1, author := 7, price := 10, reviews := 1, ratingavg := 5 }], review_ratings := [{ review_id := 1, user_id := 10, course_id := 1, rating := 5, review := none }], videos := [], video_progress := [], payments := [], enrollments := [] }) :=
  C5_duplicate_review_rejected _ 10 1 4 none
    { courseid := 1, author := 7, price := 10, reviews := 1, ratingavg := 5 }
    { review_id := 1, user_id := 10, course_id := 1, rating := 5, review := none }
    (by decide) (by norm_num) (by norm_num) (by decide) (by decide)


/-- C7: a review create or update whose rating lies outside [1.0, 5.0] is
rejected before any write: create answers 400 and leaves the store
unchanged; update answers a 4xx error (400 range error, or 404/403 from the
preceding fetch/ownership checks) and leaves the store unchanged. -/
theorem C7_rating_range_validation :
    (∀ (s : Store) (userId cid : Nat) (rat : Rat) (review : Option String),
      (rat < 1 ∨ rat > 5) →
      ∃ msg, createReview s userId (some cid) (some rat) review = (.err 400 msg, s)) ∧
    (∀ (s : Store) (userId reviewId : Nat) (rat : Rat) (review : Option (Option String)),
      (rat < 1 ∨ rat > 5) →
      ∃ st msg, updateReview s userId reviewId (some rat) review = (.err st msg, s) ∧
        400 ≤ st ∧ st < 500) := by
  constructor
  · intro s userId cid rat review hrange
    by_cases h0 : (cid == 0 || rat == 0) = true
    · exact ⟨"Please provide course_id and rating", by simp [createReview, h0]⟩
    · exact ⟨"Rating must be between 1.0 and 5.0", by simp [createReview, h0, hrange]⟩
  · intro s userId reviewId rat review hrange
    rcases hsel : selectSingle s.review_ratings (fun r => r.review_id == reviewId) with _ | ex
    · exact ⟨404, "No review found with that ID", by simp [updateReview, hsel], by norm_num,
        by norm_num⟩
    · by_cases howner : (ex.user_id != userId) = true
      · exact ⟨403, "You are not authorized to update this review",
          by simp [updateReview, hsel, howner], by norm_num, by norm_num⟩
      · exact ⟨400, "Rating must be between 1.0 and 5.0",
          by simp [updateReview, hsel, howner, hrange], by norm_num, by norm_num⟩

/-- Witness for C7: a create with rating 6 on the empty one-course store is
rejected with a 400 and no write. -/
theorem C7_rating_range_validation_witness :
    ∃ msg, createReview wStore 10 (some 1) (some 6) none = (.err 400 msg, wStore) :=
  C7_rating_range_validation.1 wStore 10 1 6 none (by norm_num)


/-- C3: the next `order_index` for an append is 0 on an empty course and a
maximal existing index plus one otherwise; a successful upload/append
inserts exactly that index; and the course video listing is the course's
videos sorted ascending by `order_index`. -/
theorem C3_video_ordering :
    (∀ (vs : List VideoRow) (cid : Nat),
      courseVideos vs cid = [] → nextOrderIndex vs cid = 0) ∧
    (∀ (vs : List VideoRow) (cid : Nat),
      courseVideos vs cid ≠ [] →
      ∃ v ∈ courseVideos vs cid,
        nextOrderIndex vs cid = v.order_index + 1 ∧
        ∀ w ∈ courseVideos vs cid, w.order_index ≤ v.order_index) ∧
    (∀ (s : Store) (userId cid : Nat) (title : String) (dur : Nat) (url : String),
      (uploadAppend s userId cid title dur url).1.isOk = true →
      ∃ row, (uploadAppend s userId cid title dur url).1 = .ok 201 row ∧
        (uploadAppend s userId cid title dur url).2.videos = s.videos ++ [row] ∧
        row.order_index = nextOrderIndex s.videos cid) ∧
    (∀ (s : Store) (cid : Nat),
      ∃ l, getVideosByCourse s cid = .ok 200 l ∧ List.Sorted vasc l ∧
        l.Perm (courseVideos s.videos cid)) := by
  refine ⟨?_, ?_, ?_, ?_⟩
  · intro vs cid h
    unfold nextOrderIndex
    rw [h]
    rfl
  · intro vs cid hne
    rcases hs : List.insertionSort vdesc (courseVideos vs cid) with _ | ⟨v, rest⟩
    · exfalso
      have hperm := List.perm_insertionSort vdesc (courseVideos vs cid)
      rw [hs] at hperm
      exact hne (hperm.nil_eq).symm
    · refine ⟨v, ?_, ?_, ?_⟩
      · have hv : v ∈ List.insertionSort vdesc (courseVideos vs cid) := by
          rw [hs]
          exact List.mem_cons_self _ _
        exact (List.mem_insertionSort vdesc).mp hv
      · unfold nextOrderIndex
        rw [hs]
        rfl
      · intro w hw
        have hsorted := List.sorted_insertionSort vdesc (courseVideos vs cid)
        rw [hs] at hsorted
        have hw2 : w ∈ v :: rest := by
          rw [← hs]
          exact (List.mem_insertionSort vdesc).mpr hw
        rcases List.mem_cons.mp hw2 with rfl | hwr
        · exact le_refl _
        · exact List.rel_of_sorted_cons hsorted w hwr
  · intro s userId cid title dur url hok
    unfold uploadAppend userUploadVideo at hok ⊢
    by_cases h0 : (cid == 0) = true
    · simp [h0, Resp.isOk] at hok
    · rcases hc : selectSingle s.courses (fun c => c.courseid == cid) with _ | course
      · simp [h0, hc, Resp.isOk] at hok
      · by_cases hauth : (course.author != userId) = true
        · simp [h0, hc, hauth, Resp.isOk] at hok
        · refine ⟨{ video_id := freshVideoId s, video_title := title, video_duration := dur, in_course := cid, video_url := url, order_index := nextOrderIndex s.videos cid }, ?_, ?_, rfl⟩
          · simp [h0, hc, hauth]
          · simp [h0, hc, hauth]
  · intro s cid
    exact ⟨_, rfl, List.sorted_insertionSort vasc _, List.perm_insertionSort vasc _⟩

/-- Witness for C3 at a concrete input: appending to a course whose maximal
`order_index` is 4 succeeds and the row is stored with index 5. -/
theorem C3_video_ordering_witness :
    ∃ row,
      (uploadAppend { courses := [{ courseid := 1, author := 7, price := 10, reviews := 0, ratingavg := 0 }], review_ratings := [], videos := [{ video_id := 1, video_title := "a", video_duration := 60, in_course := 1, video_url := "u1", order_index := 4 }, { video_id := 2, video_title := "b", video_duration := 60, in_course := 2, video_url := "u2", order_index := 9 }], video_progress := [], payments := [], enrollments := [] } 7 1 "c" 60 "u3").1 = .ok 201 row ∧
      (uploadAppend { courses := [{ courseid := 1, author := 7, price := 10, reviews := 0, ratingavg := 0 }], review_ratings := [], videos := [{ video_id := 1, video_title := "a", video_duration := 60, in_course := 1, video_url := "u1", order_index := 4 }, { video_id := 2, video_title := "b", video_duration := 60, in_course := 2, video_url := "u2", order_index := 9 }], video_progress := [], payments := [], enrollments := [] } 7 1 "c" 60 "u3").2.videos =
        [{ video_id := 1, video_title := "a", video_duration := 60, in_course := 1, video_url := "u1", order_index := 4 }, { video_id := 2, video_title := "b", video_duration := 60, in_course := 2, video_url := "u2", order_index := 9 }] ++ [row] ∧
      row.order_index = 5 := by
  obtain ⟨row, h1, h2, h3⟩ := C3_video_ordering.2.2.1
    { courses := [{ courseid := 1, author := 7, price := 10, reviews := 0, ratingavg := 0 }], review_ratings := [], videos := [{ video_id := 1, video_title := "a", video_duration := 60, in_course := 1, video_url := "u1", order_index := 4 }, { video_id := 2, video_title := "b", video_duration := 60, in_course := 2, video_url := "u2", order_index := 9 }], video_progress := [], payments := [], enrollments := [] }
    7 1 "c" 60 "u3" (by decide)
  exact ⟨row, h1, h2, by rw [h3]; decide⟩


theorem upsertProgress_unique (rows : List ProgressRow) (r : ProgressRow)
    (h : pairCount rows r.user_id r.video_id ≤ 1) :
    pairCount (upsertProgress rows r) r.user_id r.video_id = 1 ∧
    rowFor (upsertProgress rows r) r.user_id r.video_id = some r := by
  have hpr : (r.user_id == r.user_id && r.video_id == r.video_id) = true := by simp
  unfold upsertProgress
  by_cases hany : rows.any (fun q => q.user_id == r.user_id && q.video_id == r.video_id) = true
  · rw [if_pos hany]
    have hge : 1 ≤ pairCount rows r.user_id r.video_id := by
      obtain ⟨q, hq, hpq⟩ := List.any_eq_true.mp hany
      have : q ∈ rows.filter (fun q => q.user_id == r.user_id && q.video_id == r.video_id) :=
        List.mem_filter.mpr ⟨hq, hpq⟩
      have := List.length_pos.mpr (List.ne_nil_of_mem this)
      exact this
    have hone : pairCount rows r.user_id r.video_id = 1 := le_antisymm h hge
    obtain ⟨q0, hq0⟩ := List.length_eq_one.mp hone
    have hq0mem : q0 ∈ rows.filter (fun q => q.user_id == r.user_id && q.video_id == r.video_id) := by
      rw [hq0]
      exact List.mem_singleton_self _
    have hpq0 : (q0.user_id == r.user_id && q0.video_id == r.video_id) = true :=
      (List.mem_filter.mp hq0mem).2
    have hmap : (rows.map (fun q => if q.user_id == r.user_id && q.video_id == r.video_id then r else q)).filter (fun q => q.user_id == r.user_id && q.video_id == r.video_id) = [r] := by
      rw [List.filter_map]
      have hcong : rows.filter ((fun q => q.user_id == r.user_id && q.video_id == r.video_id) ∘ (fun q => if q.user_id == r.user_id && q.video_id == r.video_id then r else q)) = rows.filter (fun q => q.user_id == r.user_id && q.video_id == r.video_id) := by
        apply List.filter_congr
        intro a _
        by_cases ha : (a.user_id == r.user_id && a.video_id == r.video_id) = true
        · simp [Function.comp, ha, hpr]
        · simp [Function.comp, ha]
      rw [hcong, hq0]
      simp only [List.map_cons, List.map_nil, if_pos hpq0]
    constructor
    · unfold pairCount
      rw [hmap]
      rfl
    · unfold rowFor selectSingle
      rw [hmap]
  · rw [if_neg hany]
    have hnil : rows.filter (fun q => q.user_id == r.user_id && q.video_id == r.video_id) = [] := by
      rw [List.filter_eq_nil_iff]
      intro a ha
      have hanyf : rows.any (fun q => q.user_id == r.user_id && q.video_id == r.video_id) = false :=
        Bool.eq_false_iff.mpr hany
      have := List.any_eq_false.mp hanyf a ha
      simpa using this
    have happ : (rows ++ [r]).filter (fun q => q.user_id == r.user_id && q.video_id == r.video_id) = [r] := by
      rw [List.filter_append, hnil]
      simp [hpr]
    constructor
    · unfold pairCount
      rw [happ]
      rfl
    · unfold rowFor selectSingle
      rw [happ]



/-- C4: two sequential progress upserts for the same (user, video) pair
(on a store where the pair has at most one row, as the upsert key enforces)
leave exactly one `video_progress` row for the pair, holding the values
written by the later upsert. -/
theorem C4_progress_upsert_single_row :
    ∀ (s : Store) (uid vid : Nat) (st1 st2 : Option String) (w1 w2 : Option Nat) (t1 t2 : Nat),
      pairCount s.video_progress uid vid ≤ 1 →
      (statusFalsy st1 && (w1 == none)) = false →
      (statusFalsy st2 && (w2 == none)) = false →
      (updateVideoProgress s (some uid) vid st1 w1 t1).1.isOk = true ∧
      (updateVideoProgress (updateVideoProgress s (some uid) vid st1 w1 t1).2
        (some uid) vid st2 w2 t2).1.isOk = true ∧
      pairCount (updateVideoProgress (updateVideoProgress s (some uid) vid st1 w1 t1).2
        (some uid) vid st2 w2 t2).2.video_progress uid vid = 1 ∧
      rowFor (updateVideoProgress (updateVideoProgress s (some uid) vid st1 w1 t1).2
        (some uid) vid st2 w2 t2).2.video_progress uid vid =
        some { user_id := uid, video_id := vid, status := if statusFalsy st2 then "in_progress" else st2.getD "in_progress", watched_seconds := w2.getD 0, updated_at := t2 } := by
  intro s uid vid st1 st2 w1 w2 t1 t2 hcount hv1 hv2
  simp only [updateVideoProgress, hv1, hv2, Bool.false_eq_true, if_false, Resp.isOk]
  have h1 := upsertProgress_unique s.video_progress ⟨uid, vid, (if statusFalsy st1 then "in_progress" else st1.getD "in_progress"), w1.getD 0, t1⟩ hcount
  have h2 := upsertProgress_unique (upsertProgress s.video_progress ⟨uid, vid, (if statusFalsy st1 then "in_progress" else st1.getD "in_progress"), w1.getD 0, t1⟩) ⟨uid, vid, (if statusFalsy st2 then "in_progress" else st2.getD "in_progress"), w2.getD 0, t2⟩ (le_of_eq h1.1)
  exact ⟨trivial, trivial, h2.1, h2.2⟩

/-- Witness for C4: two upserts for (user 3, video 9) on an empty store
leave one row with the second upsert's values. -/
theorem C4_progress_upsert_single_row_witness :
    pairCount (updateVideoProgress (updateVideoProgress { courses := [], review_ratings := [], videos := [], video_progress := [], payments := [], enrollments := [] } (some 3) 9 (some "completed") (some 100) 1).2 (some 3) 9 none (some 250) 2).2.video_progress 3 9 = 1 ∧
    rowFor (updateVideoProgress (updateVideoProgress { courses := [], review_ratings := [], videos := [], video_progress := [], payments := [], enrollments := [] } (some 3) 9 (some "completed") (some 100) 1).2 (some 3) 9 none (some 250) 2).2.video_progress 3 9 =
      some { user_id := 3, video_id := 9, status := "in_progress", watched_seconds := 250, updated_at := 2 } := by
  have h := C4_progress_upsert_single_row
    { courses := [], review_ratings := [], videos := [], video_progress := [], payments := [], enrollments := [] }
    3 9 (some "completed") none (some 100) (some 250) 1 2 (by decide) (by decide) (by decide)
  exact ⟨h.2.2.1, h.2.2.2⟩

/-- C8: a progress upsert missing both fields is rejected with a 400
validation error; a status-only upsert writes `watched_seconds` 0 (whatever
was stored before); a seconds-only upsert writes status `in_progress`. -/
theorem C8_progress_default_fields :
    (∀ (s : Store) (uid vid : Nat) (st : Option String) (w : Option Nat) (t : Nat),
      (statusFalsy st && (w == none)) = true →
      updateVideoProgress s (some uid) vid st w t =
        (.err 400 "Please provide status or watched_seconds", s)) ∧
    (∀ (s : Store) (uid vid : Nat) (v : String) (t : Nat), v ≠ "" →
      updateVideoProgress s (some uid) vid (some v) none t =
        (.ok 200 { user_id := uid, video_id := vid, status := v, watched_seconds := 0, updated_at := t },
         { s with video_progress := upsertProgress s.video_progress { user_id := uid, video_id := vid, status := v, watched_seconds := 0, updated_at := t } })) ∧
    (∀ (s : Store) (uid vid : Nat) (st : Option String) (w t : Nat),
      statusFalsy st = true →
      updateVideoProgress s (some uid) vid st (some w) t =
        (.ok 200 { user_id := uid, video_id := vid, status := "in_progress", watched_seconds := w, updated_at := t },
         { s with video_progress := upsertProgress s.video_progress { user_id := uid, video_id := vid, status := "in_progress", watched_seconds := w, updated_at := t } })) ∧
    (∀ (s : Store) (uid vid : Nat) (v : String) (t : Nat), v ≠ "" →
      pairCount s.video_progress uid vid ≤ 1 →
      rowFor (updateVideoProgress s (some uid) vid (some v) none t).2.video_progress uid vid =
        some { user_id := uid, video_id := vid, status := v, watched_seconds := 0, updated_at := t }) := by
  refine ⟨?_, ?_, ?_, ?_⟩
  · intro s uid vid st w t hmiss
    simp [updateVideoProgress, hmiss]
  · intro s uid vid v t hv
    have hsf : statusFalsy (some v) = false := by simp [statusFalsy, hv]
    simp [updateVideoProgress, hsf]
  · intro s uid vid st w t hsf
    simp [updateVideoProgress, hsf]
  · intro s uid vid v t hv hcount
    have hsf : statusFalsy (some v) = false := by simp [statusFalsy, hv]
    simp only [updateVideoProgress, hsf, Bool.false_and, Bool.false_eq_true, if_false,
      Option.getD_none]
    exact (upsertProgress_unique _ _ hcount).2

/-- Witness for C8: a status-only upsert over a stored row with 500 watched
seconds resets the stored `watched_seconds` to 0. -/
theorem C8_progress_default_fields_witness :
    rowFor (updateVideoProgress { courses := [], review_ratings := [], videos := [], video_progress := [{ user_id := 3, video_id := 9, status := "in_progress", watched_seconds := 500, updated_at := 1 }], payments := [], enrollments := [] } (some 3) 9 (some "completed") none 2).2.video_progress 3 9 =
      some { user_id := 3, video_id := 9, status := "completed", watched_seconds := 0, updated_at := 2 } :=
  C8_progress_default_fields.2.2.2
    { courses := [], review_ratings := [], videos := [], video_progress := [{ user_id := 3, video_id := 9, status := "in_progress", watched_seconds := 500, updated_at := 1 }], payments := [], enrollments := [] }
    3 9 "completed" 2 (by decide) (by decide)



theorem paymentsForSession_insertPayment (s : Store) (uid cid : Nat) (amt : Rat) (sid : String) :
    paymentsForSession (insertPayment s uid cid amt sid) sid = paymentsForSession s sid + 1 := by
  unfold paymentsForSession insertPayment
  rw [List.filter_append]
  simp

theorem paymentsForSession_insertEnrollment (s : Store) (uid cid now : Nat) (sid : String) :
    paymentsForSession (insertEnrollment s uid cid now) sid = paymentsForSession s sid := rfl

theorem enrollmentsFor_insertEnrollment (s : Store) (uid cid now : Nat) :
    enrollmentsFor (insertEnrollment s uid cid now) uid cid = enrollmentsFor s uid cid + 1 := by
  unfold enrollmentsFor insertEnrollment
  rw [List.filter_append]
  simp

theorem enrollmentsFor_insertPayment (s : Store) (uid cid : Nat) (amt : Rat) (sid : String)
    (uid2 cid2 : Nat) :
    enrollmentsFor (insertPayment s uid cid amt sid) uid2 cid2 = enrollmentsFor s uid2 cid2 := rfl

theorem selectSingle_none_of_zero {s : Store} {sid : String}
    (h : paymentsForSession s sid = 0) :
    selectSingle s.payments (fun p => p.stripe_session_id == sid) = none := by
  unfold paymentsForSession at h
  have hnil := List.length_eq_zero.mp h
  unfold selectSingle
  rw [hnil]

/-- The filter on the stripe session id after a fresh payment insert for that
session: exactly the inserted row. -/
theorem filter_insertPayment_self (s : Store) (uid cid : Nat) (amt : Rat) (sid : String)
    (h : paymentsForSession s sid = 0) :
    (insertPayment s uid cid amt sid).payments.filter (fun p => p.stripe_session_id == sid) =
      [{ payment_id := freshPaymentId s, user_id := uid, course_id := cid, amount := amt, payment_status := "succeeded", stripe_session_id := sid }] := by
  unfold paymentsForSession at h
  have hnil := List.length_eq_zero.mp h
  unfold insertPayment
  rw [List.filter_append, hnil]
  simp

/-- Delivery of a paid checkout confirmation via the webhook: dedup no-op
when a payment row for the session exists, insert of one `succeeded`
payment and one enrollment when none does. -/
theorem webhookCheckout_dedup (s : Store) (sess : StripeSession) (now cid uid : Nat)
    (p : PaymentRow)
    (hpaid : sess.payment_status = "paid")
    (hcid : sess.client_reference_id.orElse (fun _ => sess.metadata_course_id) = some cid)
    (huid : sess.metadata_user_id = some uid)
    (hdup : s.payments.filter (fun q => q.stripe_session_id == sess.id) = [p]) :
    webhookCheckout s "checkout.session.completed" sess now = (.ok 200 (), s) := by
  have hsel : selectSingle s.payments (fun q => q.stripe_session_id == sess.id) = some p :=
    selectSingle_of_filter_eq hdup
  simp [webhookCheckout, hpaid, hcid, huid, hsel]

theorem webhookCheckout_fresh (s : Store) (sess : StripeSession) (now cid uid : Nat)
    (hpaid : sess.payment_status = "paid")
    (hcid : sess.client_reference_id.orElse (fun _ => sess.metadata_course_id) = some cid)
    (huid : sess.metadata_user_id = some uid)
    (hzero : paymentsForSession s sess.id = 0) :
    webhookCheckout s "checkout.session.completed" sess now =
      (.ok 200 (), insertEnrollment (insertPayment s uid cid ((sess.amount_total : Rat) / 100) sess.id) uid cid now) := by
  have hsel := selectSingle_none_of_zero hzero
  simp [webhookCheckout, hpaid, hcid, huid, hsel]



theorem verifyPayment_dedup (s : Store) (sid : String) (retrieve : String → Option StripeSession)
    (sess : StripeSession) (now : Nat) (p : PaymentRow)
    (hsid : sid ≠ "")
    (hret : retrieve sid = some sess)
    (hpaid : sess.payment_status = "paid")
    (hdup : s.payments.filter (fun q => q.stripe_session_id == sid) = [p]) :
    verifyPayment s (some sid) retrieve now = (.err 400 "Payment already recorded", s) := by
  have hsel : selectSingle s.payments (fun q => q.stripe_session_id == sid) = some p :=
    selectSingle_of_filter_eq hdup
  simp [verifyPayment, hsid, hret, hpaid, hsel]

theorem verifyPayment_fresh (s : Store) (sid : String) (retrieve : String → Option StripeSession)
    (sess : StripeSession) (now cid uid : Nat)
    (hsid : sid ≠ "")
    (hret : retrieve sid = some sess)
    (hpaid : sess.payment_status = "paid")
    (hcid : sess.client_reference_id = some cid)
    (huid : sess.metadata_user_id = some uid)
    (hzero : paymentsForSession s sid = 0) :
    verifyPayment s (some sid) retrieve now =
      (.ok 200 (), insertEnrollment (insertPayment s uid cid ((sess.amount_total : Rat) / 100) sess.id) uid cid now) := by
  have hsel := selectSingle_none_of_zero hzero
  simp [verifyPayment, hsid, hret, hpaid, hcid, huid, hsel]



/-- C2: a paid payment confirmation (webhook delivery or client verify) is
a state no-op when a payment row for the provider session id already
exists, and otherwise inserts exactly one `succeeded` payment row and one
enrollment row; re-delivering the same confirmation twice therefore leaves
exactly one payment row for the session id and one enrollment row for the
(user, course) pair. -/
theorem C2_payment_confirmation_idempotent :
    (∀ (s : Store) (sess : StripeSession) (now cid uid : Nat) (p : PaymentRow),
      sess.payment_status = "paid" →
      sess.client_reference_id.orElse (fun _ => sess.metadata_course_id) = some cid →
      sess.metadata_user_id = some uid →
      s.payments.filter (fun q => q.stripe_session_id == sess.id) = [p] →
      webhookCheckout s "checkout.session.completed" sess now = (.ok 200 (), s)) ∧
    (∀ (s : Store) (sess : StripeSession) (now cid uid : Nat),
      sess.payment_status = "paid" →
      sess.client_reference_id.orElse (fun _ => sess.metadata_course_id) = some cid →
      sess.metadata_user_id = some uid →
      paymentsForSession s sess.id = 0 →
      (webhookCheckout s "checkout.session.completed" sess now).1 = .ok 200 () ∧
      paymentsForSession (webhookCheckout s "checkout.session.completed" sess now).2 sess.id = 1 ∧
      enrollmentsFor (webhookCheckout s "checkout.session.completed" sess now).2 uid cid =
        enrollmentsFor s uid cid + 1) ∧
    (∀ (s : Store) (sid : String) (retrieve : String → Option StripeSession)
        (sess : StripeSession) (now : Nat) (p : PaymentRow),
      sid ≠ "" → retrieve sid = some sess → sess.payment_status = "paid" →
      s.payments.filter (fun q => q.stripe_session_id == sid) = [p] →
      verifyPayment s (some sid) retrieve now = (.err 400 "Payment already recorded", s)) ∧
    (∀ (s : Store) (sid : String) (retrieve : String → Option StripeSession)
        (sess : StripeSession) (now cid uid : Nat),
      sid ≠ "" → retrieve sid = some sess → sess.payment_status = "paid" →
      sess.id = sid → sess.client_reference_id = some cid → sess.metadata_user_id = some uid →
      paymentsForSession s sid = 0 →
      (verifyPayment s (some sid) retrieve now).1 = .ok 200 () ∧
      paymentsForSession (verifyPayment s (some sid) retrieve now).2 sid = 1 ∧
      enrollmentsFor (verifyPayment s (some sid) retrieve now).2 uid cid =
        enrollmentsFor s uid cid + 1) ∧
    (∀ (s : Store) (sess : StripeSession) (now cid uid : Nat),
      sess.payment_status = "paid" →
      sess.client_reference_id.orElse (fun _ => sess.metadata_course_id) = some cid →
      sess.metadata_user_id = some uid →
      paymentsForSession s sess.id = 0 →
      enrollmentsFor s uid cid = 0 →
      paymentsForSession (webhookCheckout (webhookCheckout s "checkout.session.completed" sess now).2 "checkout.session.completed" sess now).2 sess.id = 1 ∧
      enrollmentsFor (webhookCheckout (webhookCheckout s "checkout.session.completed" sess now).2 "checkout.session.completed" sess now).2 uid cid = 1) ∧
    (∀ (s : Store) (sid : String) (retrieve : String → Option StripeSession)
        (sess : StripeSession) (now cid uid : Nat),
      sid ≠ "" → retrieve sid = some sess → sess.payment_status = "paid" →
      sess.id = sid → sess.client_reference_id = some cid → sess.metadata_user_id = some uid →
      paymentsForSession s sid = 0 →
      enrollmentsFor s uid cid = 0 →
      paymentsForSession (verifyPayment (verifyPayment s (some sid) retrieve now).2 (some sid) retrieve now).2 sid = 1 ∧
      enrollmentsFor (verifyPayment (verifyPayment s (some sid) retrieve now).2 (some sid) retrieve now).2 uid cid = 1) := by
  refine ⟨webhookCheckout_dedup, ?_, verifyPayment_dedup, ?_, ?_, ?_⟩
  · intro s sess now cid uid hpaid hcid huid hzero
    have h1 := webhookCheckout_fresh s sess now cid uid hpaid hcid huid hzero
    simp only [h1]
    refine ⟨trivial, ?_, ?_⟩
    · rw [paymentsForSession_insertEnrollment, paymentsForSession_insertPayment, hzero]
    · rw [enrollmentsFor_insertEnrollment, enrollmentsFor_insertPayment]
  · intro s sid retrieve sess now cid uid hsid hret hpaid hid hcid huid hzero
    subst hid
    have h1 := verifyPayment_fresh s sess.id retrieve sess now cid uid hsid hret hpaid hcid huid hzero
    simp only [h1]
    refine ⟨trivial, ?_, ?_⟩
    · rw [paymentsForSession_insertEnrollment, paymentsForSession_insertPayment, hzero]
    · rw [enrollmentsFor_insertEnrollment, enrollmentsFor_insertPayment]
  · intro s sess now cid uid hpaid hcid huid hzero henr
    have h1 := webhookCheckout_fresh s sess now cid uid hpaid hcid huid hzero
    have hfil : (insertEnrollment (insertPayment s uid cid ((sess.amount_total : Rat) / 100) sess.id) uid cid now).payments.filter (fun q => q.stripe_session_id == sess.id) = [{ payment_id := freshPaymentId s, user_id := uid, course_id := cid, amount := (sess.amount_total : Rat) / 100, payment_status := "succeeded", stripe_session_id := sess.id }] :=
      filter_insertPayment_self s uid cid ((sess.amount_total : Rat) / 100) sess.id hzero
    have h2 := webhookCheckout_dedup
      (insertEnrollment (insertPayment s uid cid ((sess.amount_total : Rat) / 100) sess.id) uid cid now)
      sess now cid uid _ hpaid hcid huid hfil
    simp only [h1, h2]
    constructor
    · rw [paymentsForSession_insertEnrollment, paymentsForSession_insertPayment, hzero]
    · rw [enrollmentsFor_insertEnrollment, enrollmentsFor_insertPayment, henr]
  · intro s sid retrieve sess now cid uid hsid hret hpaid hid hcid huid hzero henr
    subst hid
    have h1 := verifyPayment_fresh s sess.id retrieve sess now cid uid hsid hret hpaid hcid huid hzero
    have hfil : (insertEnrollment (insertPayment s uid cid ((sess.amount_total : Rat) / 100) sess.id) uid cid now).payments.filter (fun q => q.stripe_session_id == sess.id) = [{ payment_id := freshPaymentId s, user_id := uid, course_id := cid, amount := (sess.amount_total : Rat) / 100, payment_status := "succeeded", stripe_session_id := sess.id }] :=
      filter_insertPayment_self s uid cid ((sess.amount_total : Rat) / 100) sess.id hzero
    have h2 := verifyPayment_dedup
      (insertEnrollment (insertPayment s uid cid ((sess.amount_total : Rat) / 100) sess.id) uid cid now)
      sess.id retrieve sess now _ hsid hret hpaid hfil
    simp only [h1, h2]
    constructor
    · rw [paymentsForSession_insertEnrollment, paymentsForSession_insertPayment, hzero]
    · rw [enrollmentsFor_insertEnrollment, enrollmentsFor_insertPayment, henr]



/-- Witness for C2: delivering the same paid webhook event twice on an empty
store leaves exactly one payment row for the session and one enrollment. -/
theorem C2_payment_confirmation_idempotent_witness :
    paymentsForSession (webhookCheckout (webhookCheckout { courses := [], review_ratings := [], videos := [], video_progress := [], payments := [], enrollments := [] } "checkout.session.completed" { id := "cs_1", payment_status := "paid", client_reference_id := some 1, metadata_user_id := some 3, metadata_course_id := none, amount_total := 50000 } 5).2 "checkout.session.completed" { id := "cs_1", payment_status := "paid", client_reference_id := some 1, metadata_user_id := some 3, metadata_course_id := none, amount_total := 50000 } 5).2 "cs_1" = 1 ∧
    enrollmentsFor (webhookCheckout (webhookCheckout { courses := [], review_ratings := [], videos := [], video_progress := [], payments := [], enrollments := [] } "checkout.session.completed" { id := "cs_1", payment_status := "paid", client_reference_id := some 1, metadata_user_id := some 3, metadata_course_id := none, amount_total := 50000 } 5).2 "checkout.session.completed" { id := "cs_1", payment_status := "paid", client_reference_id := some 1, metadata_user_id := some 3, metadata_course_id := none, amount_total := 50000 } 5).2 3 1 = 1 :=
  C2_payment_confirmation_idempotent.2.2.2.2.1
    { courses := [], review_ratings := [], videos := [], video_progress := [], payments := [], enrollments := [] }
    { id := "cs_1", payment_status := "paid", client_reference_id := some 1, metadata_user_id := some 3, metadata_course_id := none, amount_total := 50000 }
    5 1 3 rfl rfl rfl rfl rfl



/-- C6: a checkout request for an existing, positively priced course for
which the user already holds a `succeeded` payment row is rejected with the
400 already-purchased business error, and control never reaches the Payment
Provider call. -/
theorem C6_checkout_already_purchased :
    ∀ (s : Store) (userId courseId : Nat) (course : CourseRow) (p : PaymentRow),
      selectSingle s.courses (fun c => c.courseid == courseId) = some course →
      0 < course.price →
      s.payments.filter (fun q => q.user_id == userId && q.course_id == courseId &&
        q.payment_status == "succeeded") = [p] →
      getCheckoutSession s userId courseId = .erred 400 "You have already purchased this course" ∧
      getCheckoutSession s userId courseId ≠ .providerCalled := by
  intro s userId courseId course p hcourse hprice hpay
  have hsel : selectSingle s.payments (fun q => q.user_id == userId && q.course_id == courseId &&
      q.payment_status == "succeeded") = some p := selectSingle_of_filter_eq hpay
  have hnp : ¬course.price ≤ 0 := not_le.mpr hprice
  constructor
  · simp [getCheckoutSession, hcourse, hnp, hsel]
  · simp [getCheckoutSession, hcourse, hnp, hsel]

/-- Witness for C6: with course 1 priced 10 and a succeeded payment by
user 3, checkout is rejected before the provider call. -/
theorem C6_checkout_already_purchased_witness :
    getCheckoutSession { courses := [{ courseid := 1, author := 7, price := 10, reviews := 0, ratingavg := 0 }], review_ratings := [], videos := [], video_progress := [], payments := [{ payment_id := 1, user_id := 3, course_id := 1, amount := 10, payment_status := "succeeded", stripe_session_id := "cs_1" }], enrollments := [] } 3 1 = .erred 400 "You have already purchased this course" :=
  (C6_checkout_already_purchased
    { courses := [{ courseid := 1, author := 7, price := 10, reviews := 0, ratingavg := 0 }], review_ratings := [], videos := [], video_progress := [], payments := [{ payment_id := 1, user_id := 3, course_id := 1, amount := 10, payment_status := "succeeded", stripe_session_id := "cs_1" }], enrollments := [] }
    3 1 { courseid := 1, author := 7, price := 10, reviews := 0, ratingavg := 0 }
    { payment_id := 1, user_id := 3, course_id := 1, amount := 10, payment_status := "succeeded", stripe_session_id := "cs_1" }
    (by decide) (by norm_num) (by decide)).1



/-- C9: the admin direct-create path inserts with `order_index: order_index
|| 0`, so an omitted or zero index is stored as 0 without consulting the
course's existing indices; inserting into a course that already holds an
index-0 video therefore duplicates index 0 and breaks per-course
uniqueness. -/
theorem C9_createVideo_duplicate_zero_index :
    (∀ (s : Store) (title : String) (dur cid : Nat) (url : String) (idx : Option Nat),
      title ≠ "" → dur ≠ 0 → cid ≠ 0 → url ≠ "" → (idx = none ∨ idx = some 0) →
      createVideo s title dur (some cid) url idx =
        (.ok 201 { video_id := freshVideoId s, video_title := title, video_duration := dur, in_course := cid, video_url := url, order_index := 0 },
         { s with videos := s.videos ++ [{ video_id := freshVideoId s, video_title := title, video_duration := dur, in_course := cid, video_url := url, order_index := 0 }] })) ∧
    (∀ (s : Store) (title : String) (dur cid : Nat) (url : String) (idx : Option Nat),
      title ≠ "" → dur ≠ 0 → cid ≠ 0 → url ≠ "" → (idx = none ∨ idx = some 0) →
      1 ≤ zeroIndexCount s.videos cid →
      zeroIndexCount (createVideo s title dur (some cid) url idx).2.videos cid =
        zeroIndexCount s.videos cid + 1 ∧
      2 ≤ zeroIndexCount (createVideo s title dur (some cid) url idx).2.videos cid) := by
  have main : ∀ (s : Store) (title : String) (dur cid : Nat) (url : String) (idx : Option Nat),
      title ≠ "" → dur ≠ 0 → cid ≠ 0 → url ≠ "" → (idx = none ∨ idx = some 0) →
      createVideo s title dur (some cid) url idx =
        (.ok 201 { video_id := freshVideoId s, video_title := title, video_duration := dur, in_course := cid, video_url := url, order_index := 0 },
         { s with videos := s.videos ++ [{ video_id := freshVideoId s, video_title := title, video_duration := dur, in_course := cid, video_url := url, order_index := 0 }] }) := by
    intro s title dur cid url idx ht hd hc hu hidx
    have hcond : (title == "" || dur == 0 || cid == 0 || url == "") = false := by
      simp [ht, hd, hc, hu]
    rcases hidx with rfl | rfl
    · simp [createVideo, hcond]
    · simp [createVideo, hcond]
  refine ⟨main, ?_⟩
  intro s title dur cid url idx ht hd hc hu hidx hone
  rw [main s title dur cid url idx ht hd hc hu hidx]
  have hstep : zeroIndexCount (s.videos ++ [{ video_id := freshVideoId s, video_title := title, video_duration := dur, in_course := cid, video_url := url, order_index := 0 }]) cid = zeroIndexCount s.videos cid + 1 := by
    unfold zeroIndexCount courseVideos
    rw [List.filter_append, List.filter_append]
    simp
  constructor
  · exact hstep
  · rw [hstep]
    omega

/-- Witness for C9: creating a video without `order_index` in a course that
already has an index-0 video yields two index-0 videos in that course. -/
theorem C9_createVideo_duplicate_zero_index_witness :
    2 ≤ zeroIndexCount (createVideo { courses := [], review_ratings := [], videos := [{ video_id := 1, video_title := "a", video_duration := 60, in_course := 1, video_url := "u1", order_index := 0 }], video_progress := [], payments := [], enrollments := [] } "b" 60 (some 1) "u2" none).2.videos 1 :=
  (C9_createVideo_duplicate_zero_index.2
    { courses := [], review_ratings := [], videos := [{ video_id := 1, video_title := "a", video_duration := 60, in_course := 1, video_url := "u1", order_index := 0 }], video_progress := [], payments := [], enrollments := [] }
    "b" 60 1 "u2" none (by decide) (by decide) (by decide) (by decide) (Or.inl rfl)
    (by decide)).2



/-- C10: when the progress-table read fails during an authenticated
course-with-progress listing, the handler swallows the error and still
answers 200 with every video carrying the synthetic default
`not_started`/0 progress — the same response a user with no stored
progress rows receives. -/
theorem C10_progress_read_failure_swallowed :
    ∀ (s : Store) (cid uid : Nat),
      getVideosWithProgress s cid (some uid) true =
        .ok 200 ((List.insertionSort vasc (courseVideos s.videos cid)).map
          (fun v => (v, ProgressView.dflt))) ∧
      getVideosWithProgress s cid (some uid) true =
        getVideosWithProgress { s with video_progress := [] } cid (some uid) false := by
  intro s cid uid
  constructor
  · unfold getVideosWithProgress
    by_cases h : 0 < (List.map (fun v => v.video_id) (List.insertionSort vasc (courseVideos s.videos cid))).length
    · simp [h, lookupProg]
    · simp [h, lookupProg]
  · unfold getVideosWithProgress
    by_cases h : 0 < (List.map (fun v => v.video_id) (List.insertionSort vasc (courseVideos s.videos cid))).length
    · simp [h, lookupProg]
    · simp [h, lookupProg]


end SaasApp
